import Mathlib

/-!
Shallow embedding of `pygigas.py` (class `Gigas` and `GigasVM`), a client for
the Gigas cloud API.  HTTP transport is modelled by oracles: each operation
takes the decoded JSON responses it would receive as explicit arguments.
Python exceptions (`KeyError` from a missing dict key, `HTTPError` from
`raise_for_status`) are modelled by the `PyExc` type; a `PyRes` value is
either a normal return or a raised exception.
-/

namespace Pygigas

/-- Python exceptions that the client code can raise. -/
inductive PyExc where
  | httpError (code : Nat)
  | keyError (key : String)
  /-- artefact of the oracle model: the finite response trace ran out. -/
  | transportExhausted
deriving DecidableEq, Repr

/-- Result of running a piece of Python code: a value or a raised exception. -/
inductive PyRes (α : Type) where
  | ok (a : α)
  | exn (e : PyExc)
deriving DecidableEq, Repr

/-- Decoded JSON body of one `GET /transaction/{id}/status` response.
`error` is the value of the `"error"` key when present, `status` the value of
the `"status"` key when present. -/
structure StatusBody where
  error  : Option String
  status : Option String
deriving DecidableEq, Repr

/-- Observable outcome of one run of `_wait_for_transaction`: the returned
value (a string in the source) or the exception, together with the number of
HTTP GET polls issued and the number of `sleep` calls performed. -/
structure WaitRun where
  result : PyRes String
  polls  : Nat
  sleeps : Nat
deriving DecidableEq, Repr

/-- The body of the `while (True)` loop of `Gigas._wait_for_transaction`,
with the mutable `num_retries` counter passed explicitly and the successive
poll responses supplied as a list.  Faithful to the source: the `"error"` key
is checked first (`"Transaction not found"` returns `"Not found"`, any other
error value returns `"Error"`); otherwise `res.json()["status"]` is read (a
missing key raises `KeyError`); `"complete"` returns `"Complete"`; otherwise
`num_retries` is incremented, `"Timeout"` is returned once it reaches
`max_retries`, and otherwise the loop continues — the source's `else` branch
is a bare `continue`, so no sleep happens and `polling_interval` is unused. -/
def wait_aux (polling_interval max_retries num_retries : Nat) :
    List StatusBody → WaitRun
  | [] => ⟨.exn .transportExhausted, 0, 0⟩
  | res :: rest =>
    match res.error with
    | some e =>
      if e = "Transaction not found" then ⟨.ok "Not found", 1, 0⟩
      else ⟨.ok "Error", 1, 0⟩
    | none =>
      match res.status with
      | none => ⟨.exn (.keyError "status"), 1, 0⟩
      | some s =>
        if s = "complete" then ⟨.ok "Complete", 1, 0⟩
        else
          if num_retries + 1 ≥ max_retries then ⟨.ok "Timeout", 1, 0⟩
          else
            let w := wait_aux polling_interval max_retries (num_retries + 1) rest
            ⟨w.result, w.polls + 1, w.sleeps⟩

/-- Default value of the `polling_interval` parameter. -/
def default_polling_interval : Nat := 5

/-- Default value of the `max_retries` parameter. -/
def default_max_retries : Nat := 24

/-- Embedding of `Gigas._wait_for_transaction(transaction_id, polling_interval, max_retries)`
run against the response trace `polls` (`num_retries` starts at 0). -/
def wait_for_transaction (polls : List StatusBody)
    (polling_interval max_retries : Nat) : WaitRun :=
  wait_aux polling_interval max_retries 0 polls

/-- A response body that keeps the wait loop polling: no `error` key,
`status` is `"pending"`. -/
def pendingBody : StatusBody := ⟨none, some "pending"⟩

/-- A response body with `status: "complete"`. -/
def completeBody : StatusBody := ⟨none, some "complete"⟩

/-- Predicate: `b` drives the loop into its retry branch: no `error` key and a `status`
key whose value is not `"complete"`. -/
def nonterminalB (b : StatusBody) : Bool :=
  b.error.isNone && b.status.isSome && b.status != some "complete"

/-! ## `get_machine_info` -/

/-- One element of the array returned by
`GET /virtual_machine/{id}/network_interfaces`. -/
structure Interface where
  id : Nat
deriving DecidableEq, Repr

/-- One element of the array returned by `GET /ip_addresses`. -/
structure IpEntry where
  interface_id : Nat
  address : String
deriving DecidableEq, Repr

/-- The response bodies consumed by one call of `Gigas.get_machine_info`. -/
structure MachineInfoInputs where
  vm_attributes : List (String × String)
  interfaces : List Interface
  ips : List IpEntry
deriving DecidableEq, Repr

/-- The attribute mapping returned by `get_machine_info`: the base attributes
of the first GET plus the derived `ip_addresses` entry. -/
structure VMAttributes where
  base : List (String × String)
  ip_addresses : List String
deriving DecidableEq, Repr

/-- Semantics of Python's `x in gen` on a generator: elements are consumed
one by one until one equals `x` (result `true`, the elements after the match
remain) or the generator is exhausted (result `false`, nothing remains). -/
def genContains (x : Nat) : List Nat → Bool × List Nat
  | [] => (false, [])
  | y :: ys => if y = x then (true, ys) else genContains x ys

/-- The `for ip in ...` loop of `get_machine_info`.  In the source
`interface_ids` is a generator expression, so every membership test consumes
it; the remaining generator state is threaded through the iterations. -/
def collect_ips (interface_ids : List Nat) : List IpEntry → List String
  | [] => []
  | ip :: rest =>
    match genContains ip.interface_id interface_ids with
    | (true, remaining) => ip.address :: collect_ips remaining rest
    | (false, remaining) => collect_ips remaining rest

/-- Embedding of `Gigas.get_machine_info(machine_id)` run against the response oracle
`inputs`: fetches the base attributes, builds the generator
`(interface["id"] for interface in res.json())`, filters the global IP list
through it, and stores the collected addresses under `ip_addresses`. -/
def get_machine_info (inputs : MachineInfoInputs) : VMAttributes :=
  let interface_ids := inputs.interfaces.map Interface.id
  ⟨inputs.vm_attributes, collect_ips interface_ids inputs.ips⟩

/-! ## Session state, `__init__`, `_update_temporary_token` -/

/-- The mutable state of a `Gigas` object: endpoint, credentials, current
token and the `auth_retries` counter.  The `headers` dict is derived from the
token (see `GigasState.headers`). -/
structure GigasState where
  api_endpoint : String
  apiuser : String
  apipswd : String
  token : String
  auth_retries : Nat
deriving DecidableEq, Repr

/-- The headers dict `self.headers` as maintained by the source: `Authorization` is
rewritten to `"Gigas token=" + token` by every token refresh. -/
def GigasState.headers (st : GigasState) : List (String × String) :=
  [("Authorization", "Gigas token=" ++ st.token), ("Accept", "application/json")]

/-- Embedding of `Gigas._update_temporary_token`, with the decoded body of the
`POST /token` response supplied as an oracle: `tokenBody` is the value of its
`"token"` key when present.  A missing key raises `KeyError`; otherwise the
token (and hence the `Authorization` header) is overwritten. -/
def update_temporary_token (st : GigasState) (tokenBody : Option String) :
    PyRes GigasState :=
  match tokenBody with
  | none => .exn (.keyError "token")
  | some tok => .ok { st with token := tok }

/-- Embedding of `Gigas.__init__`: stores endpoint and credentials, fetches an initial
token, then sets `auth_retries` to 0.  This is the only place the source ever
writes 0 into `auth_retries`. -/
def Gigas.init (apiuser apipswd api_endpoint : String)
    (tokenBody : Option String) : PyRes GigasState :=
  match tokenBody with
  | none => .exn (.keyError "token")
  | some tok => .ok ⟨api_endpoint, apiuser, apipswd, tok, 0⟩

/-! ## `create_vm` -/

/-- Value of `r.codes.unauthorized`. -/
def unauthorized : Nat := 401

/-- Decoded response to `POST /virtual_machine`: HTTP status code, the value
of the `"queue_token"` key when present, and `res.json()["resource"]["id"]`
when present. -/
structure CreateResponse where
  status_code : Nat
  queue_token : Option Nat
  resource_id : Option Nat
deriving DecidableEq, Repr

/-- What `create_vm` can return: a `GigasVM` built from the fetched machine
attributes, or the literal `False`. -/
inductive CreateResult where
  | vm (vm_attributes : VMAttributes)
  | falseResult
deriving DecidableEq, Repr

/-- Observable outcome of one run of `create_vm`: returned value or raised
exception, the final session state, and how many `POST /virtual_machine`
requests were issued. -/
structure CreateRun where
  result : PyRes CreateResult
  final_state : GigasState
  post_attempts : Nat
deriving DecidableEq, Repr

/-- The tail of `create_vm`, from `transaction_id = res.json()["queue_token"]`
on: read `queue_token` and `resource.id` (missing keys raise `KeyError`),
wait for the transaction, and return a `GigasVM` built from
`get_machine_info` when the wait result is `"Complete"` or `"Not found"`,
the literal `False` otherwise.  The session state is not touched here. -/
def finish_create (st : GigasState) (res : CreateResponse) (attempts : Nat)
    (polls : List StatusBody) (info : MachineInfoInputs) : CreateRun :=
  match res.queue_token with
  | none => ⟨.exn (.keyError "queue_token"), st, attempts⟩
  | some _transaction_id =>
    match res.resource_id with
    | none => ⟨.exn (.keyError "resource"), st, attempts⟩
    | some _machine_id =>
      let w := wait_for_transaction polls default_polling_interval default_max_retries
      match w.result with
      | .exn e => ⟨.exn e, st, attempts⟩
      | .ok transaction_result =>
        if transaction_result = "Complete" ∨ transaction_result = "Not found" then
          ⟨.ok (.vm (get_machine_info info)), st, attempts⟩
        else
          ⟨.ok .falseResult, st, attempts⟩

/-- Embedding of `Gigas.create_vm` run against oracles: `res1` is the response to the
first POST, `retryRes` the response to the retried POST (consumed only if a
retry happens), `tokenBody` the body of the token-refresh response, `polls`
the transaction-status trace and `info` the `get_machine_info` responses.
Faithful to the source: only the FIRST response's status code is examined;
on 401 the counter is incremented, and if it is still `< 2` the token is
refreshed and the POST retried once — the retried response is then used
unconditionally; otherwise `res.raise_for_status()` raises the 401.  The
counter is never reset. -/
def create_vm (st : GigasState) (res1 retryRes : CreateResponse)
    (tokenBody : Option String) (polls : List StatusBody)
    (info : MachineInfoInputs) : CreateRun :=
  if res1.status_code = unauthorized then
    let st1 := { st with auth_retries := st.auth_retries + 1 }
    if st1.auth_retries < 2 then
      match update_temporary_token st1 tokenBody with
      | .exn e => ⟨.exn e, st1, 1⟩
      | .ok st2 => finish_create st2 retryRes 2 polls info
    else
      ⟨.exn (.httpError res1.status_code), st1, 1⟩
  else
    finish_create st res1 1 polls info

/-! ## `GigasVM` and `delete_vm` -/

/-- Embedding of `GigasVM`: a machine id plus the attribute mapping copied at
construction (`setattr` over the `vm_attributes` dict in the source). -/
structure GigasVM where
  id : Nat
  vm_attributes : VMAttributes
deriving DecidableEq, Repr

/-- Decoded response to `DELETE /virtual_machine/{id}`: the value of its
`"queue_token"` key when present. -/
structure DeleteResponse where
  queue_token : Option Nat
deriving DecidableEq, Repr

/-- Observable outcome of one run of `delete_vm`: returned value (`None`,
i.e. `Unit`) or raised exception, the VM object as it stands after the call,
and the URL the DELETE was sent to (the only use the function makes of its
argument). -/
structure DeleteRun where
  result : PyRes Unit
  vm_after : GigasVM
  url : String
deriving DecidableEq, Repr

/-- Embedding of `Gigas.delete_vm(vm)` run against oracles: issues the DELETE (the URL is
built from `vm.id`, the only read of `vm`), parses `queue_token` (a missing
key raises `KeyError`), waits for the transaction and discards the wait
result; `del vm` only unbinds the local name, so the object is returned
unchanged. -/
def delete_vm (st : GigasState) (vm : GigasVM) (res : DeleteResponse)
    (polls : List StatusBody) : DeleteRun :=
  let url := st.api_endpoint ++ "/virtual_machine/" ++ toString vm.id
  match res.queue_token with
  | none => ⟨.exn (.keyError "queue_token"), vm, url⟩
  | some _transaction_id =>
    let w := wait_for_transaction polls default_polling_interval default_max_retries
    match w.result with
    | .exn e => ⟨.exn e, vm, url⟩
    | .ok _transaction_result => ⟨.ok (), vm, url⟩

/-! ## Shared concrete inputs -/

/-- A session state with a fresh retry counter, as left by `__init__`. -/
def st0 : GigasState := ⟨"https://api.madrid.gigas.com", "user", "password", "tok0", 0⟩

/-- A `get_machine_info` oracle with no data. -/
def emptyInfo : MachineInfoInputs := ⟨[], [], []⟩

/-- The end-to-end scenario 3 oracle: interfaces `[{id:1},{id:2}]` and IP list
`[{interface_id:2, address:"10.0.0.2"}, {interface_id:1, address:"10.0.0.1"},
{interface_id:3, address:"10.0.0.3"}]`. -/
def scenario3 : MachineInfoInputs :=
  ⟨[], [⟨1⟩, ⟨2⟩], [⟨2, "10.0.0.2"⟩, ⟨1, "10.0.0.1"⟩, ⟨3, "10.0.0.3"⟩]⟩

/-- A 401 response to `POST /virtual_machine` whose body carries no
`queue_token` and no `resource.id`. -/
def res401 : CreateResponse := ⟨401, none, none⟩

/-- A successful response to `POST /virtual_machine`:
`queue_token = 42`, `resource.id = 99`. -/
def resOK : CreateResponse := ⟨200, some 42, some 99⟩

/-- A transaction-status body carrying an error value other than
`"Transaction not found"`. -/
def erroredBody : StatusBody := ⟨some "boom", none⟩

/-- A sample VM object. -/
def vmSample : GigasVM := ⟨99, ⟨[("label", "test-label")], ["10.0.0.1"]⟩⟩

/-! ## Helper lemmas about the wait loop -/

/-- The loop of `_wait_for_transaction` never sleeps, whatever the trace:
its `else` branch is a bare `continue`. -/
theorem wait_aux_sleeps_zero (pi mr : Nat) :
    ∀ (polls : List StatusBody) (c : Nat), (wait_aux pi mr c polls).sleeps = 0 := by
  intro polls
  induction polls with
  | nil => intro c; rfl
  | cons b rest ih =>
    intro c
    obtain ⟨berr, bstat⟩ := b
    cases berr with
    | some e =>
      by_cases he : e = "Transaction not found" <;> simp [wait_aux, he]
    | none =>
      cases bstat with
      | none => rfl
      | some s =>
        by_cases hcs : s = "complete"
        · simp [wait_aux, hcs]
        · by_cases hge : c + 1 ≥ mr
          · simp [wait_aux, hcs, hge]
          · simp [wait_aux, hcs, hge, ih]

/-- On a trace of only non-terminal bodies that is long enough, the loop
returns `"Timeout"` after exactly `mr - c` further polls. -/
theorem wait_aux_timeout (pi mr : Nat) :
    ∀ (polls : List StatusBody) (c : Nat), c < mr → mr - c ≤ polls.length →
    (∀ b ∈ polls, nonterminalB b = true) →
    wait_aux pi mr c polls = ⟨.ok "Timeout", mr - c, 0⟩ := by
  intro polls
  induction polls with
  | nil =>
    intro c hc hlen _
    simp only [List.length_nil] at hlen
    omega
  | cons b rest ih =>
    intro c hc hlen hall
    have hb := hall b (List.mem_cons_self b rest)
    obtain ⟨berr, bstat⟩ := b
    cases berr with
    | some e => simp [nonterminalB] at hb
    | none =>
      cases bstat with
      | none => simp [nonterminalB] at hb
      | some s =>
        have hs : ¬ s = "complete" := by
          simp [nonterminalB] at hb
          simpa using hb
        by_cases hge : c + 1 ≥ mr
        · have h1 : mr - c = 1 := by omega
          simp [wait_aux, hs, hge, h1]
        · have h2 : c + 1 < mr := by omega
          have hlen' : mr - (c + 1) ≤ rest.length := by
            simp only [List.length_cons] at hlen
            omega
          have ihres := ih (c + 1) h2 hlen'
            (fun x hx => hall x (List.mem_cons_of_mem _ hx))
          simp only [wait_aux, hs, if_false, hge, ihres]
          simp [hs, hge]
          omega

/-- The first body carrying an `error` key ends the loop at once, provided
the non-terminal bodies before it do not already exhaust the retry budget. -/
theorem wait_aux_first_error (pi mr : Nat) :
    ∀ (pre : List StatusBody) (c : Nat) (b : StatusBody) (post : List StatusBody)
      (e : String),
    c + pre.length < mr → (∀ x ∈ pre, nonterminalB x = true) → b.error = some e →
    wait_aux pi mr c (pre ++ b :: post) =
      ⟨.ok (if e = "Transaction not found" then "Not found" else "Error"),
        pre.length + 1, 0⟩ := by
  intro pre
  induction pre with
  | nil =>
    intro c b post e _ _ hb
    obtain ⟨berr, bstat⟩ := b
    simp only [StatusBody.error] at hb
    subst hb
    by_cases he : e = "Transaction not found" <;> simp [wait_aux, he]
  | cons x pre ih =>
    intro c b post e hlt hall hb
    have hx := hall x (List.mem_cons_self x pre)
    obtain ⟨xerr, xstat⟩ := x
    cases xerr with
    | some _ => simp [nonterminalB] at hx
    | none =>
      cases xstat with
      | none => simp [nonterminalB] at hx
      | some s =>
        have hs : ¬ s = "complete" := by
          simp [nonterminalB] at hx
          simpa using hx
        have hge : ¬ (c + 1 ≥ mr) := by
          simp only [List.length_cons] at hlt
          omega
        have ihres := ih (c + 1) b post e
          (by simp only [List.length_cons] at hlt; omega)
          (fun y hy => hall y (List.mem_cons_of_mem _ hy)) hb
        simp only [List.cons_append]
        simp [wait_aux, hs, hge, ihres]

/-- The wait loop raises only `KeyError("status")` (missing `"status"` key)
or runs out of oracle responses; in particular it never raises an HTTP
status error. -/
theorem wait_aux_exn_cases (pi mr : Nat) :
    ∀ (polls : List StatusBody) (c : Nat) (e : PyExc),
    (wait_aux pi mr c polls).result = .exn e →
    e = .keyError "status" ∨ e = .transportExhausted := by
  intro polls
  induction polls with
  | nil =>
    intro c e h
    simp only [wait_aux] at h
    cases h
    exact Or.inr rfl
  | cons b rest ih =>
    intro c e h
    obtain ⟨berr, bstat⟩ := b
    cases berr with
    | some ev =>
      by_cases he : ev = "Transaction not found" <;> simp [wait_aux, he] at h
    | none =>
      cases bstat with
      | none =>
        simp only [wait_aux] at h
        cases h
        exact Or.inl rfl
      | some s =>
        by_cases hcs : s = "complete"
        · simp [wait_aux, hcs] at h
        · by_cases hge : c + 1 ≥ mr
          · simp [wait_aux, hcs, hge] at h
          · simp only [wait_aux, hcs, hge] at h
            simp [hcs, hge] at h
            exact ih (c + 1) e h

/-- If every polled body carries an `error` or a `status` key, the loop never
raises `KeyError("status")`. -/
theorem wait_aux_no_status_keyerror (pi mr : Nat) :
    ∀ (polls : List StatusBody) (c : Nat),
    (∀ b ∈ polls, b.error.isSome ∨ b.status.isSome) →
    (wait_aux pi mr c polls).result ≠ .exn (.keyError "status") := by
  intro polls
  induction polls with
  | nil =>
    intro c _
    simp [wait_aux]
  | cons b rest ih =>
    intro c hall
    have hb := hall b (List.mem_cons_self b rest)
    obtain ⟨berr, bstat⟩ := b
    cases berr with
    | some e =>
      by_cases he : e = "Transaction not found" <;> simp [wait_aux, he]
    | none =>
      cases bstat with
      | none => simp at hb
      | some s =>
        by_cases hcs : s = "complete"
        · simp [wait_aux, hcs]
        · by_cases hge : c + 1 ≥ mr
          · simp [wait_aux, hcs, hge]
          · have := ih (c + 1) (fun y hy => hall y (List.mem_cons_of_mem _ hy))
            simp only [wait_aux, hcs, hge]
            simpa [hcs, hge] using this

/-! ## Claims about the wait loop -/

/-- Claim C4: the spec says `_wait_for_transaction` sleeps
`pollIntervalSeconds` between every two consecutive polls.  The code never
sleeps: the retry branch is a bare `continue`, `polling_interval` and the
imported `sleep` are unused.  On the trace `[pending, complete]` the loop
issues 2 polls and 0 sleeps, and no trace at all makes it sleep. -/
theorem C4_no_sleep_between_polls :
    (∀ (polls : List StatusBody) (pi mr : Nat),
      (wait_for_transaction polls pi mr).sleeps = 0) ∧
    wait_for_transaction [pendingBody, completeBody] 5 24 =
      ⟨.ok "Complete", 2, 0⟩ := by
  constructor
  · intro polls pi mr
    exact wait_aux_sleeps_zero pi mr polls 0
  · decide

/-- Claim C5: on any trace of at least `mr` non-terminal responses (no
`error` key, a `status` value other than `"complete"`), the wait returns
`"Timeout"` after issuing exactly `mr` polls, neither fewer nor more. -/
theorem C5_timeout_exact_polls (polls : List StatusBody) (pi mr : Nat)
    (hmr : 0 < mr) (hlen : mr ≤ polls.length)
    (hall : ∀ b ∈ polls, nonterminalB b = true) :
    wait_for_transaction polls pi mr = ⟨.ok "Timeout", mr, 0⟩ := by
  have h := wait_aux_timeout pi mr polls 0 hmr (by omega) hall
  simpa [wait_for_transaction] using h

/-- Witness for C5 at the default bound: 24 `pending` responses yield
`"Timeout"` after exactly 24 polls. -/
theorem C5_timeout_exact_polls_witness :
    0 < 24 ∧ 24 ≤ (List.replicate 24 pendingBody).length ∧
    wait_for_transaction (List.replicate 24 pendingBody) 5 24 =
      ⟨.ok "Timeout", 24, 0⟩ :=
  ⟨by decide, by decide,
    C5_timeout_exact_polls (List.replicate 24 pendingBody) 5 24
      (by decide) (by decide) (by decide)⟩

/-- Claim C6 as stated is false: an `error` body does NOT terminate the wait
"regardless of how many non-terminal polls preceded it".  With 24 `pending`
responses before a `"Transaction not found"` error, the loop times out on the
24th poll and never observes the error body, returning `"Timeout"` instead of
`"Not found"`. -/
theorem C6_counterexample :
    (wait_for_transaction
        (List.replicate 24 pendingBody ++ [⟨some "Transaction not found", none⟩])
        5 24).result = .ok "Timeout" ∧
    (wait_for_transaction
        (List.replicate 24 pendingBody ++ [⟨some "Transaction not found", none⟩])
        5 24).result ≠ .ok "Not found" := by
  exact ⟨by decide, by decide⟩

/-- Claim C6, amended: the first body carrying an `error` key terminates the
wait immediately and without consuming an attempt — `"Not found"` when the
value is `"Transaction not found"`, `"Error"` otherwise — provided fewer than
`mr` non-terminal polls precede it (otherwise the wait has already returned
`"Timeout"`). -/
theorem C6_amended_first_error (pre post : List StatusBody) (b : StatusBody)
    (e : String) (pi mr : Nat)
    (hlen : pre.length < mr) (hpre : ∀ x ∈ pre, nonterminalB x = true)
    (hb : b.error = some e) :
    wait_for_transaction (pre ++ b :: post) pi mr =
      ⟨.ok (if e = "Transaction not found" then "Not found" else "Error"),
        pre.length + 1, 0⟩ := by
  have h := wait_aux_first_error pi mr pre 0 b post e (by omega) hpre hb
  simpa [wait_for_transaction] using h

/-- Witness for the amended C6: one `pending` response, then a
`"Transaction not found"` error, then an unread `complete`; the wait returns
`"Not found"` after 2 polls. -/
theorem C6_amended_first_error_witness :
    ([pendingBody] : List StatusBody).length < 24 ∧
    wait_for_transaction
        ([pendingBody] ++ ⟨some "Transaction not found", none⟩ :: [completeBody])
        5 24 =
      ⟨.ok (if "Transaction not found" = "Transaction not found"
              then "Not found" else "Error"),
        ([pendingBody] : List StatusBody).length + 1, 0⟩ :=
  ⟨by decide,
    C6_amended_first_error [pendingBody] [completeBody]
      ⟨some "Transaction not found", none⟩ "Transaction not found" 5 24
      (by decide) (by decide) rfl⟩

/-- Claim C9: a poll body with neither an `error` nor a `status` key makes
the unguarded `res.json()["status"]` lookup raise `KeyError`, so the wait
returns no outcome; and this branch is unreachable whenever every body
carries one of the two keys. -/
theorem C9_missing_status_key (polls : List StatusBody) (pi mr : Nat)
    (hall : ∀ b ∈ polls, b.error.isSome ∨ b.status.isSome) :
    (wait_for_transaction [⟨none, none⟩] pi mr).result = .exn (.keyError "status") ∧
    (wait_for_transaction polls pi mr).result ≠ .exn (.keyError "status") := by
  constructor
  · rfl
  · exact wait_aux_no_status_keyerror pi mr polls 0 hall

/-- Witness for C9 on a trace of well-formed bodies. -/
theorem C9_missing_status_key_witness :
    (∀ b ∈ [pendingBody, completeBody], b.error.isSome ∨ b.status.isSome) ∧
    ((wait_for_transaction [⟨none, none⟩] 5 24).result = .exn (.keyError "status") ∧
      (wait_for_transaction [pendingBody, completeBody] 5 24).result ≠
        .exn (.keyError "status")) :=
  ⟨by decide, C9_missing_status_key [pendingBody, completeBody] 5 24 (by decide)⟩

/-! ## Helper lemmas about `create_vm` and `delete_vm` -/

/-- The tail of `create_vm` never touches the session state. -/
theorem finish_create_final_state (st : GigasState) (res : CreateResponse)
    (attempts : Nat) (polls : List StatusBody) (info : MachineInfoInputs) :
    (finish_create st res attempts polls info).final_state = st := by
  unfold finish_create
  cases res.queue_token with
  | none => rfl
  | some t =>
    cases res.resource_id with
    | none => rfl
    | some m =>
      cases hw : (wait_for_transaction polls default_polling_interval
          default_max_retries).result with
      | exn e => simp [hw]
      | ok r => by_cases hr : r = "Complete" ∨ r = "Not found" <;> simp [hw, hr]

/-- The tail of `create_vm` issues no further POSTs: the attempt count it
reports is the one it is given. -/
theorem finish_create_post_attempts (st : GigasState) (res : CreateResponse)
    (attempts : Nat) (polls : List StatusBody) (info : MachineInfoInputs) :
    (finish_create st res attempts polls info).post_attempts = attempts := by
  unfold finish_create
  cases res.queue_token with
  | none => rfl
  | some t =>
    cases res.resource_id with
    | none => rfl
    | some m =>
      cases hw : (wait_for_transaction polls default_polling_interval
          default_max_retries).result with
      | exn e => simp [hw]
      | ok r => by_cases hr : r = "Complete" ∨ r = "Not found" <;> simp [hw, hr]

/-- The tail of `create_vm` never raises an HTTP status error: its only
exceptions are missing-key `KeyError`s and the wait loop's exceptions. -/
theorem finish_create_no_httpError (st : GigasState) (res : CreateResponse)
    (attempts : Nat) (polls : List StatusBody) (info : MachineInfoInputs)
    (code : Nat) :
    (finish_create st res attempts polls info).result ≠ .exn (.httpError code) := by
  unfold finish_create
  cases res.queue_token with
  | none => simp
  | some t =>
    cases res.resource_id with
    | none => simp
    | some m =>
      cases hw : (wait_for_transaction polls default_polling_interval
          default_max_retries).result with
      | exn e =>
        have hcase := wait_aux_exn_cases default_polling_interval
          default_max_retries polls 0 e hw
        rcases hcase with h | h <;> simp [hw, h]
      | ok r => by_cases hr : r = "Complete" ∨ r = "Not found" <;> simp [hw, hr]

/-- The `delete_vm` embedding returns its VM argument untouched: the function
only reads `vm.id`, and `del vm` unbinds the local name without mutating the
object. -/
theorem delete_vm_vm_after (st : GigasState) (vm : GigasVM)
    (res : DeleteResponse) (polls : List StatusBody) :
    (delete_vm st vm res polls).vm_after = vm := by
  unfold delete_vm
  cases res.queue_token with
  | none => rfl
  | some t =>
    cases hw : (wait_for_transaction polls default_polling_interval
        default_max_retries).result with
    | exn e => simp [hw]
    | ok r => simp [hw]

/-! ## Claims about `get_machine_info`, `create_vm` and `delete_vm` -/

/-- Claim C1: the spec expects `ip_addresses = ["10.0.0.2", "10.0.0.1"]` on
scenario 3 (every address whose `interface_id` is among the returned
interfaces, in scan order).  The code builds `interface_ids` as a generator,
so the first membership test (`2 in interface_ids`) consumes it entirely; the
later test for interface 1 sees an exhausted generator and fails, and only
`"10.0.0.2"` is collected. -/
theorem C1_generator_exhaustion :
    (get_machine_info scenario3).ip_addresses = ["10.0.0.2"] ∧
    (get_machine_info scenario3).ip_addresses ≠ ["10.0.0.2", "10.0.0.1"] := by
  exact ⟨by decide, by decide⟩

/-- Claim C2 as stated is false: after the one token refresh and retry, the
retried response's status code is never examined, so a second consecutive 401
raises no auth error at all — the code falls through to
`res.json()["queue_token"]` and here raises `KeyError` on the 401 body.  The
run makes exactly 2 POSTs (no third attempt, that much of the claim holds)
and its outcome is not an HTTP 401 error. -/
theorem C2_counterexample :
    create_vm st0 res401 res401 (some "tok1") [] emptyInfo =
      ⟨.exn (.keyError "queue_token"),
        ⟨"https://api.madrid.gigas.com", "user", "password", "tok1", 1⟩, 2⟩ ∧
    (create_vm st0 res401 res401 (some "tok1") [] emptyInfo).result ≠
      .exn (.httpError 401) := by
  exact ⟨by decide, by decide⟩

/-- Claim C2, amended: on a 401 first response with a fresh counter,
`create_vm` refreshes the token and retries exactly once, then processes the
retried response without re-checking its status code — so no HTTP auth error
can be raised on that path, whatever the retried response is; the 401
`raise_for_status` fires (with a single POST and no retry) only when the
incremented counter already reaches 2, i.e. when a previous operation on the
same session had already consumed the retry. -/
theorem C2_amended_auth_retry (st stUsed : GigasState)
    (res1 retryRes : CreateResponse) (tok : String) (polls : List StatusBody)
    (info : MachineInfoInputs) (code : Nat)
    (h1 : res1.status_code = 401) (h2 : st.auth_retries = 0)
    (h3 : 1 ≤ stUsed.auth_retries) :
    (create_vm st res1 retryRes (some tok) polls info).post_attempts = 2 ∧
    create_vm st res1 retryRes (some tok) polls info =
      finish_create { st with token := tok, auth_retries := 1 } retryRes
        2 polls info ∧
    (create_vm st res1 retryRes (some tok) polls info).result ≠
      .exn (.httpError code) ∧
    create_vm stUsed res1 retryRes (some tok) polls info =
      ⟨.exn (.httpError 401),
        { stUsed with auth_retries := stUsed.auth_retries + 1 }, 1⟩ := by
  have key : create_vm st res1 retryRes (some tok) polls info =
      finish_create { st with token := tok, auth_retries := 1 } retryRes
        2 polls info := by
    simp [create_vm, unauthorized, h1, h2, update_temporary_token]
  refine ⟨?_, key, ?_, ?_⟩
  · rw [key]
    exact finish_create_post_attempts _ _ _ _ _
  · rw [key]
    exact finish_create_no_httpError _ _ _ _ _ _
  · have hge : ¬ (stUsed.auth_retries + 1 < 2) := by omega
    simp [create_vm, unauthorized, h1, hge]

/-- Witness for the amended C2: a fresh session retried once on 401 (left
column) versus a session whose counter was already consumed (right column). -/
theorem C2_amended_auth_retry_witness :
    (res401.status_code = 401 ∧ st0.auth_retries = 0 ∧
      1 ≤ (⟨"e", "u", "p", "t", 1⟩ : GigasState).auth_retries) ∧
    ((create_vm st0 res401 resOK (some "tok9") [completeBody] emptyInfo).post_attempts
        = 2 ∧
      create_vm st0 res401 resOK (some "tok9") [completeBody] emptyInfo =
        finish_create { st0 with token := "tok9", auth_retries := 1 } resOK
          2 [completeBody] emptyInfo ∧
      (create_vm st0 res401 resOK (some "tok9") [completeBody] emptyInfo).result ≠
        .exn (.httpError 401) ∧
      create_vm ⟨"e", "u", "p", "t", 1⟩ res401 resOK (some "tok9")
          [completeBody] emptyInfo =
        ⟨.exn (.httpError 401), ⟨"e", "u", "p", "t", 2⟩, 1⟩) :=
  ⟨⟨rfl, rfl, by decide⟩,
    C2_amended_auth_retry st0 ⟨"e", "u", "p", "t", 1⟩ res401 resOK "tok9"
      [completeBody] emptyInfo 401 rfl rfl (by decide)⟩

/-- Claim C3 as stated is false: when the transaction ends Errored the code
does not raise a `ProvisionError` — it logs and returns the literal `False`.
Here the single poll response carries `error: "boom"`, the wait returns
`"Error"`, and `create_vm` returns normally with `False`. -/
theorem C3_counterexample :
    (create_vm st0 resOK resOK none [erroredBody] emptyInfo).result =
      .ok .falseResult ∧
    (wait_for_transaction [erroredBody] default_polling_interval
        default_max_retries).result = .ok "Error" := by
  exact ⟨by decide, by decide⟩

/-- Claim C3, amended: when the create transaction's wait returns outcome
`r`, `create_vm` returns a `GigasVM` built from the fetched machine
attributes if `r` is `"Complete"` or `"Not found"`, and returns the literal
`False` (it does not raise) for every other outcome, in particular
`"Error"` and `"Timeout"`. -/
theorem C3_amended_outcome_dispatch (st : GigasState)
    (res retryRes : CreateResponse) (tokenBody : Option String)
    (polls : List StatusBody) (info : MachineInfoInputs) (qt mid : Nat)
    (r : String)
    (hst : res.status_code ≠ 401) (hq : res.queue_token = some qt)
    (hm : res.resource_id = some mid)
    (hw : (wait_for_transaction polls default_polling_interval
        default_max_retries).result = .ok r) :
    (create_vm st res retryRes tokenBody polls info).result =
      (if r = "Complete" ∨ r = "Not found"
        then .ok (.vm (get_machine_info info))
        else .ok .falseResult) := by
  simp only [create_vm, unauthorized, hst, if_neg hst]
  simp only [finish_create, hq, hm, hw]
  by_cases hr : r = "Complete" ∨ r = "Not found" <;> simp [hr]

/-- Witness for the amended C3: an errored transaction makes `create_vm`
return `False`. -/
theorem C3_amended_outcome_dispatch_witness :
    (resOK.status_code ≠ 401 ∧ resOK.queue_token = some 42 ∧
      resOK.resource_id = some 99 ∧
      (wait_for_transaction [erroredBody] default_polling_interval
          default_max_retries).result = .ok "Error") ∧
    (create_vm st0 resOK resOK none [erroredBody] emptyInfo).result =
      (if "Error" = "Complete" ∨ "Error" = "Not found"
        then .ok (.vm (get_machine_info emptyInfo))
        else .ok .falseResult) :=
  ⟨⟨by decide, rfl, rfl, by decide⟩,
    C3_amended_outcome_dispatch st0 resOK resOK none [erroredBody] emptyInfo
      42 99 "Error" (by decide) rfl rfl (by decide)⟩

/-- Claim C7: the spec requires `deleteVM` to surface Errored/TimedOut
transaction outcomes as a `DeletionError`; the code silently discards the
wait result and returns `None` in both cases (the spec's own design notes
flag this as an oversight of the original). -/
theorem C7_delete_discards_outcome :
    (delete_vm st0 vmSample ⟨some 7⟩ [erroredBody]).result = .ok () ∧
    (wait_for_transaction [erroredBody] default_polling_interval
        default_max_retries).result = .ok "Error" ∧
    (delete_vm st0 vmSample ⟨some 7⟩ (List.replicate 24 pendingBody)).result =
      .ok () ∧
    (wait_for_transaction (List.replicate 24 pendingBody)
        default_polling_interval default_max_retries).result = .ok "Timeout" := by
  exact ⟨by decide, by decide, by decide, by decide⟩

/-- Claim C8 as stated is false: `auth_retries` is set to 0 only in
`__init__` and is never reset at the start of an operation.  A first
`create_vm` that hits one 401 succeeds but leaves the counter at 1; a second
`create_vm` with the very same responses then raises the HTTP 401 after a
single POST (no refresh), while from a fresh counter it would have
succeeded — so the value left by one operation does affect the next. -/
theorem C8_counterexample :
    (create_vm st0 res401 resOK (some "tok1") [completeBody]
        emptyInfo).final_state.auth_retries = 1 ∧
    (create_vm (create_vm st0 res401 resOK (some "tok1") [completeBody]
          emptyInfo).final_state
        res401 resOK (some "tok2") [completeBody] emptyInfo).result =
      .exn (.httpError 401) ∧
    (create_vm (create_vm st0 res401 resOK (some "tok1") [completeBody]
          emptyInfo).final_state
        res401 resOK (some "tok2") [completeBody] emptyInfo).post_attempts = 1 ∧
    (create_vm st0 res401 resOK (some "tok2") [completeBody] emptyInfo).result =
      .ok (.vm (get_machine_info emptyInfo)) := by
  exact ⟨by decide, by decide, by decide, by decide⟩

/-- Claim C8, amended: `auth_retries` starts at 0 only at construction and
persists across operations; each `create_vm` whose first response is a 401
leaves it incremented by one, and every other run of `create_vm` leaves it
unchanged — it is never reset. -/
theorem C8_amended_counter_persists (st : GigasState)
    (resU resA retryRes : CreateResponse) (tokenBody : Option String)
    (polls : List StatusBody) (info : MachineInfoInputs)
    (u p e tok : String)
    (h1 : resU.status_code = 401) (h2 : resA.status_code ≠ 401) :
    Gigas.init u p e (some tok) = .ok ⟨e, u, p, tok, 0⟩ ∧
    (create_vm st resU retryRes tokenBody polls info).final_state.auth_retries =
      st.auth_retries + 1 ∧
    (create_vm st resA retryRes tokenBody polls info).final_state.auth_retries =
      st.auth_retries := by
  refine ⟨rfl, ?_, ?_⟩
  · by_cases hlt : st.auth_retries + 1 < 2
    · cases tokenBody with
      | none => simp [create_vm, unauthorized, h1, hlt, update_temporary_token]
      | some t =>
        simp [create_vm, unauthorized, h1, hlt, update_temporary_token,
          finish_create_final_state]
    · simp [create_vm, unauthorized, h1, hlt]
  · simp [create_vm, unauthorized, h2, finish_create_final_state]

/-- Witness for the amended C8: one 401 run increments the counter, one
authorized run leaves it unchanged. -/
theorem C8_amended_counter_persists_witness :
    (res401.status_code = 401 ∧ resOK.status_code ≠ 401) ∧
    (Gigas.init "user" "password" "https://api.madrid.gigas.com"
        (some "tok0") =
      .ok ⟨"https://api.madrid.gigas.com", "user", "password", "tok0", 0⟩ ∧
    (create_vm st0 res401 resOK (some "tok1") [completeBody]
        emptyInfo).final_state.auth_retries = st0.auth_retries + 1 ∧
    (create_vm st0 resOK resOK (some "tok1") [completeBody]
        emptyInfo).final_state.auth_retries = st0.auth_retries) :=
  ⟨⟨rfl, by decide⟩,
    C8_amended_counter_persists st0 res401 resOK resOK (some "tok1")
      [completeBody] emptyInfo "user" "password"
      "https://api.madrid.gigas.com" "tok0" rfl (by decide)⟩

/-- Claim C10: `delete_vm` never mutates its argument — it only reads
`vm.id` to build the DELETE URL and returns the object's attributes
unchanged — and it returns `None` for every transaction outcome the wait
produces. -/
theorem C10_delete_vm_frame (st : GigasState) (vm : GigasVM)
    (res : DeleteResponse) (polls : List StatusBody) (qt : Nat) (r : String)
    (hq : res.queue_token = some qt)
    (hw : (wait_for_transaction polls default_polling_interval
        default_max_retries).result = .ok r) :
    (delete_vm st vm res polls).vm_after = vm ∧
    (delete_vm st vm res polls).result = .ok () ∧
    (delete_vm st vm res polls).url =
      st.api_endpoint ++ "/virtual_machine/" ++ toString vm.id := by
  refine ⟨delete_vm_vm_after st vm res polls, ?_, ?_⟩
  · simp [delete_vm, hq, hw]
  · simp only [delete_vm, hq, hw]

/-- Witness for C10 on a completed delete transaction. -/
theorem C10_delete_vm_frame_witness :
    ((⟨some 7⟩ : DeleteResponse).queue_token = some 7 ∧
      (wait_for_transaction [completeBody] default_polling_interval
          default_max_retries).result = .ok "Complete") ∧
    ((delete_vm st0 vmSample ⟨some 7⟩ [completeBody]).vm_after = vmSample ∧
      (delete_vm st0 vmSample ⟨some 7⟩ [completeBody]).result = .ok () ∧
      (delete_vm st0 vmSample ⟨some 7⟩ [completeBody]).url =
        st0.api_endpoint ++ "/virtual_machine/" ++ toString vmSample.id) :=
  ⟨⟨rfl, by decide⟩,
    C10_delete_vm_frame st0 vmSample ⟨some 7⟩ [completeBody] 7 "Complete"
      rfl (by decide)⟩

end Pygigas
